import Mathlib

/-!
Shallow embedding of the Seal-gated access-control and audit subsystem of the
walrus-audit-system repository, together with proofs settling the spec claims.

Conventions of the embedding:
* Move `address`, `ID`, `u256` values are modelled as `Nat`; `u8`/`u16`/`u32`/`u64`
  arithmetic is `Nat` arithmetic with explicit abort on overflow/underflow where the
  source's checked machine arithmetic can abort (Move aborts on overflow, it does not wrap).
* An aborting Move entry function is modelled as `Except MoveErr _`; an abort reverts
  the whole transaction, so state-transition wrappers return the unchanged state on error.
* `tx_context::sender(ctx)` becomes an explicit `sender` argument and
  `clock::timestamp_ms(clock)` an explicit `now` argument.
-/

namespace WalrusAudit

/-- Outcome of a Move abort: either an `assert!`/`abort` with a `u64` code, or a
VM-level arithmetic failure (overflow, underflow, division by zero). -/
inductive MoveErr where
  | abort (code : Nat)
  | arith
deriving DecidableEq

namespace ReportAccess

/-! Embedding of `src/contracts/access_policy/sources/report_access.move`
(module `access_policy::report_access`). -/

def E_POLICY_EXPIRED : Nat := 1
def E_UNAUTHORIZED_ACCESS : Nat := 2
def E_INVALID_ACCESS_TYPE : Nat := 3
def E_NOT_POLICY_CREATOR : Nat := 4
def E_POLICY_REVOKED : Nat := 5
def E_TOKEN_EXPIRED : Nat := 6
def E_REPORT_NOT_FOUND : Nat := 7

def ACCESS_READ : Nat := 1
def ACCESS_AUDIT : Nat := 2
def ACCESS_ADMIN : Nat := 3

/-- `ReportAccessPolicy` (the `id : UID` field is omitted: object identity plays no
role in the verified claims). -/
structure ReportAccessPolicy where
  report_blob_id : Nat
  audit_record_id : Nat
  creator : Nat
  allowed_readers : List Nat
  allowed_auditors : List Nat
  allowed_admins : List Nat
  created_at : Nat
  expires_at : Option Nat
  is_active : Bool
  revocation_reason : Option (List Nat)
  total_accesses : Nat
  last_accessed_at : Option Nat
deriving DecidableEq

/-- `SealToken` (without `id : UID`); `policy_id` is the associated policy's id. -/
structure SealToken where
  policy_id : Nat
  report_blob_id : Nat
  holder : Nat
  access_type : Nat
  granted_at : Nat
  expires_at : Option Nat
  is_transferable : Bool
deriving DecidableEq

/-- A single `AccessRecord` entry of the `AccessLog`. -/
structure AccessRecord where
  accessor : Nat
  access_type : Nat
  timestamp : Nat
  token_id : Option Nat
  success : Bool
deriving DecidableEq

/-- `create_policy`: the fresh shared `ReportAccessPolicy` it constructs
(`creator = tx_context::sender(ctx)`, `created_at = clock::timestamp_ms(clock)`). -/
def create_policy (report_blob_id audit_record_id : Nat)
    (allowed_readers allowed_auditors : List Nat)
    (expires_at_ms : Option Nat) (now creator : Nat) : ReportAccessPolicy :=
  { report_blob_id := report_blob_id
    audit_record_id := audit_record_id
    creator := creator
    allowed_readers := allowed_readers
    allowed_auditors := allowed_auditors
    allowed_admins := [creator]
    created_at := now
    expires_at := expires_at_ms
    is_active := true
    revocation_reason := none
    total_accesses := 0
    last_accessed_at := none }

/-- Helper `assert_policy_valid`: abort `E_POLICY_REVOKED` if inactive, else abort
`E_POLICY_EXPIRED` if `expires_at` is set and `now > expires_at`. -/
def assert_policy_valid (policy : ReportAccessPolicy) (now : Nat) : Except MoveErr Unit :=
  if policy.is_active = false then .error (.abort E_POLICY_REVOKED)
  else match policy.expires_at with
    | some e => if now ≤ e then .ok () else .error (.abort E_POLICY_EXPIRED)
    | none => .ok ()

/-- Helper `remove_from_list`: `vector::index_of` then `vector::remove` at that index
(removes the first occurrence of `target` if present). -/
def remove_from_list (list : List Nat) (target : Nat) : List Nat :=
  match list.findIdx? (fun x => x == target) with
  | some index => list.eraseIdx index
  | none => list

/-- `grant_access_token`: on success returns the updated policy and the freshly minted
`SealToken` (which the source transfers to `recipient`). -/
def grant_access_token (policy : ReportAccessPolicy) (recipient : Nat)
    (access_type : Nat) (is_transferable : Bool) (token_expires_at : Option Nat)
    (now sender policy_obj_id : Nat) : Except MoveErr (ReportAccessPolicy × SealToken) :=
  if ¬(sender = policy.creator ∨ policy.allowed_admins.contains sender) then
    .error (.abort E_NOT_POLICY_CREATOR)
  else match assert_policy_valid policy now with
  | .error e => .error e
  | .ok _ =>
    if ¬(access_type = ACCESS_READ ∨ access_type = ACCESS_AUDIT ∨ access_type = ACCESS_ADMIN) then
      .error (.abort E_INVALID_ACCESS_TYPE)
    else
      let token : SealToken :=
        { policy_id := policy_obj_id
          report_blob_id := policy.report_blob_id
          holder := recipient
          access_type := access_type
          granted_at := now
          expires_at := token_expires_at
          is_transferable := is_transferable }
      let policy' :=
        if access_type = ACCESS_READ then
          if policy.allowed_readers.contains recipient then policy
          else { policy with allowed_readers := policy.allowed_readers ++ [recipient] }
        else if access_type = ACCESS_AUDIT then
          if policy.allowed_auditors.contains recipient then policy
          else { policy with allowed_auditors := policy.allowed_auditors ++ [recipient] }
        else
          if policy.allowed_admins.contains recipient then policy
          else { policy with allowed_admins := policy.allowed_admins ++ [recipient] }
      .ok (policy', token)

/-- `revoke_policy`: only the creator may revoke; sets `is_active := false` and records
the reason. -/
def revoke_policy (policy : ReportAccessPolicy) (reason : List Nat)
    (sender : Nat) : Except MoveErr ReportAccessPolicy :=
  if sender ≠ policy.creator then .error (.abort E_NOT_POLICY_CREATOR)
  else .ok { policy with is_active := false, revocation_reason := some reason }

/-- `remove_access`: creator/admins may remove `target` from the list selected by
`access_type`; removing the creator from `allowed_admins` is skipped. -/
def remove_access (policy : ReportAccessPolicy) (target : Nat)
    (access_type : Nat) (sender : Nat) : Except MoveErr ReportAccessPolicy :=
  if ¬(sender = policy.creator ∨ policy.allowed_admins.contains sender) then
    .error (.abort E_NOT_POLICY_CREATOR)
  else if access_type = ACCESS_READ then
    .ok { policy with allowed_readers := remove_from_list policy.allowed_readers target }
  else if access_type = ACCESS_AUDIT then
    .ok { policy with allowed_auditors := remove_from_list policy.allowed_auditors target }
  else if access_type = ACCESS_ADMIN then
    if target ≠ policy.creator then
      .ok { policy with allowed_admins := remove_from_list policy.allowed_admins target }
    else .ok policy
  else .ok policy

/-- `transfer_token`: requires `is_transferable` and `sender == token.holder`; then
transfers the object to `recipient` without touching any field. The result pairs the
(unchanged) token value with its new object owner. -/
def transfer_token (token : SealToken) (recipient : Nat)
    (sender : Nat) : Except MoveErr (SealToken × Nat) :=
  if token.is_transferable = false then .error (.abort E_UNAUTHORIZED_ACCESS)
  else if sender ≠ token.holder then .error (.abort E_UNAUTHORIZED_ACCESS)
  else .ok (token, recipient)

/-- `bytes_to_u256` while-loop body: `result += byte[i] << (i*8)` for each byte.
The `u256` additions cannot overflow for ≤ 32 bytes, so plain `Nat` addition is exact. -/
def bytes_to_u256_loop : List Nat → Nat → Nat → Nat
  | [], _, result => result
  | byte :: rest, i, result => bytes_to_u256_loop rest (i + 1) (result + byte * 2 ^ (8 * i))

/-- `bytes_to_u256`: abort `E_INVALID_ACCESS_TYPE` for more than 32 bytes, else the
little-endian accumulation of the bytes. -/
def bytes_to_u256 (bytes : List Nat) : Except MoveErr Nat :=
  if bytes.length ≤ 32 then .ok (bytes_to_u256_loop bytes 0 0)
  else .error (.abort E_INVALID_ACCESS_TYPE)

/-- `seal_approve`: active-policy check, little-endian decode of `id_bytes`, report-id
match, then creator short-circuit or membership in any of the three lists.
It takes no clock: the verdict cannot depend on time or `expires_at`. -/
def seal_approve (id_bytes : List Nat) (policy : ReportAccessPolicy)
    (sender : Nat) : Except MoveErr Unit :=
  if policy.is_active = false then .error (.abort E_POLICY_REVOKED)
  else match bytes_to_u256 id_bytes with
  | .error e => .error e
  | .ok report_blob_id =>
    if report_blob_id ≠ policy.report_blob_id then .error (.abort E_REPORT_NOT_FOUND)
    else if sender = policy.creator then .ok ()
    else
      let has_read := policy.allowed_readers.contains sender
      let has_audit := policy.allowed_auditors.contains sender
      let has_admin := policy.allowed_admins.contains sender
      if has_read || has_audit || has_admin then .ok ()
      else .error (.abort E_UNAUTHORIZED_ACCESS)

/-- `check_access`: inactive ⇒ false; expired (`now > expires_at`) ⇒ false; creator ⇒
true; otherwise membership in the single list matching `access_type`. -/
def check_access (policy : ReportAccessPolicy) (accessor : Nat)
    (access_type : Nat) (now : Nat) : Bool :=
  if policy.is_active = false then false
  else if (match policy.expires_at with
           | some e => decide (now > e)
           | none => false) then false
  else if accessor = policy.creator then true
  else if access_type = ACCESS_READ then policy.allowed_readers.contains accessor
  else if access_type = ACCESS_AUDIT then policy.allowed_auditors.contains accessor
  else if access_type = ACCESS_ADMIN then policy.allowed_admins.contains accessor
  else false

/-- `log_access`: recomputes `check_access`; on success bumps `total_accesses` (a `u64`,
abort on overflow) and stamps `last_accessed_at`; always appends an `AccessRecord`. -/
def log_access (policy : ReportAccessPolicy) (records : List AccessRecord)
    (access_type : Nat) (token_id : Option Nat) (now sender : Nat) :
    Except MoveErr (ReportAccessPolicy × List AccessRecord) :=
  let success := check_access policy sender access_type now
  if success ∧ policy.total_accesses + 1 ≥ 2 ^ 64 then .error .arith
  else
    let policy' :=
      if success then
        { policy with total_accesses := policy.total_accesses + 1,
                      last_accessed_at := some now }
      else policy
    .ok (policy', records ++ [{ accessor := sender, access_type := access_type,
                                timestamp := now, token_id := token_id,
                                success := success }])

/-- The policy-mutating entry points of the module, as transaction descriptions: the
respective non-policy arguments plus the transaction's `sender` / `clock` values. -/
inductive PolicyOp where
  | grant (recipient access_type : Nat) (is_transferable : Bool)
          (token_expires_at : Option Nat) (now sender policy_obj_id : Nat)
  | revoke (reason : List Nat) (sender : Nat)
  | removeAcc (target access_type sender : Nat)
  | logAcc (access_type : Nat) (token_id : Option Nat) (now sender : Nat)

/-- Effect of one entry call on the shared policy object: an aborting call reverts the
transaction means the policy is unchanged. -/
def applyPolicyOp (op : PolicyOp) (policy : ReportAccessPolicy) : ReportAccessPolicy :=
  match op with
  | .grant recipient access_type tr tok_exp now sender pid =>
    match grant_access_token policy recipient access_type tr tok_exp now sender pid with
    | .ok (p, _) => p
    | .error _ => policy
  | .revoke reason sender =>
    match revoke_policy policy reason sender with
    | .ok p => p
    | .error _ => policy
  | .removeAcc target access_type sender =>
    match remove_access policy target access_type sender with
    | .ok p => p
    | .error _ => policy
  | .logAcc access_type token_id now sender =>
    match log_access policy [] access_type token_id now sender with
    | .ok (p, _) => p
    | .error _ => policy

/-- Final policy after a sequence of entry calls. -/
def runPolicyOps (policy : ReportAccessPolicy) (ops : List PolicyOp) : ReportAccessPolicy :=
  ops.foldl (fun p op => applyPolicyOp op p) policy

end ReportAccess

namespace AuditCore

/-! Embedding of `src/contracts/audit_system/sources/audit_core.move`
(module `audit_system::audit_core`). -/

def E_BLOB_NOT_CERTIFIED : Nat := 1
def E_BLOB_EXPIRED : Nat := 2
def E_INVALID_CHALLENGE_COUNT : Nat := 3
def E_UNAUTHORIZED : Nat := 4
def E_INVALID_SIGNATURE_ALGORITHM : Nat := 5
def E_AUDIT_ALREADY_EXISTS : Nat := 6

def ALGO_FALCON512 : Nat := 1
def ALGO_DILITHIUM2 : Nat := 2

/-- `AuditConfig` shared object (without `id : UID`). -/
structure AuditConfig where
  admin : Nat
  min_challenge_count : Nat
  max_challenge_count : Nat
  challenge_interval_ms : Nat
  authorized_auditors : List Nat
  auditor_stakes : List (Nat × Nat)
  total_audits : Nat
  total_blobs_audited : Nat
deriving DecidableEq

/-- `AuditRecord` (without `id : UID`). -/
structure AuditRecord where
  blob_id : Nat
  blob_object_id : Nat
  auditor : Nat
  challenge_epoch : Nat
  audit_timestamp : Nat
  total_challenges : Nat
  successful_verifications : Nat
  failed_verifications : Nat
  integrity_hash : List Nat
  pqc_signature : List Nat
  pqc_algorithm : Nat
  is_valid : Bool
  failure_reason : Option (List Nat)
deriving DecidableEq

/-- `BlobAuditHistory` (without `id : UID`). -/
structure BlobAuditHistory where
  blob_id : Nat
  audit_records : List Nat
  last_audit_epoch : Nat
  total_audits : Nat
  consecutive_failures : Nat
deriving DecidableEq

/-- `submit_audit_record`: auditor-whitelist, challenge-count-range and PQC-algorithm
checks; then `failed = total - successful` (`u16` subtraction, aborts on underflow),
`is_valid = successful ≥ total * 95 / 100` (`u16` multiplication, aborts on overflow;
integer division); creates the record and bumps `config.total_audits` (`u64`).
On success returns the updated config and the shared `AuditRecord`. -/
def submit_audit_record (config : AuditConfig)
    (blob_id blob_object_id challenge_epoch total_challenges successful_verifications : Nat)
    (integrity_hash pqc_signature : List Nat) (pqc_algorithm : Nat)
    (now sender : Nat) : Except MoveErr (AuditConfig × AuditRecord) :=
  let auditor := sender
  if ¬ config.authorized_auditors.contains auditor then
    .error (.abort E_UNAUTHORIZED)
  else if ¬(config.min_challenge_count ≤ total_challenges ∧
            total_challenges ≤ config.max_challenge_count) then
    .error (.abort E_INVALID_CHALLENGE_COUNT)
  else if ¬(pqc_algorithm = ALGO_FALCON512 ∨ pqc_algorithm = ALGO_DILITHIUM2) then
    .error (.abort E_INVALID_SIGNATURE_ALGORITHM)
  else if total_challenges < successful_verifications then .error .arith
  else if 2 ^ 16 ≤ total_challenges * 95 then .error .arith
  else
    let failed_verifications := total_challenges - successful_verifications
    let is_valid := decide (successful_verifications ≥ total_challenges * 95 / 100)
    let record : AuditRecord :=
      { blob_id := blob_id
        blob_object_id := blob_object_id
        auditor := auditor
        challenge_epoch := challenge_epoch
        audit_timestamp := now
        total_challenges := total_challenges
        successful_verifications := successful_verifications
        failed_verifications := failed_verifications
        integrity_hash := integrity_hash
        pqc_signature := pqc_signature
        pqc_algorithm := pqc_algorithm
        is_valid := is_valid
        failure_reason := none }
    if 2 ^ 64 ≤ config.total_audits + 1 then .error .arith
    else .ok ({ config with total_audits := config.total_audits + 1 }, record)

/-- `create_blob_audit_history`: the fresh shared history object for `blob_id`. -/
def create_blob_audit_history (blob_id : Nat) : BlobAuditHistory :=
  { blob_id := blob_id
    audit_records := []
    last_audit_epoch := 0
    total_audits := 0
    consecutive_failures := 0 }

/-- `update_blob_audit_history`: append the record id, stamp `last_audit_epoch`,
`total_audits += 1` (`u32`, aborts on overflow), and reset / increment
`consecutive_failures` (`u32`, aborts on overflow) according to `is_valid`. -/
def update_blob_audit_history (history : BlobAuditHistory)
    (audit_record_id challenge_epoch : Nat) (is_valid : Bool) :
    Except MoveErr BlobAuditHistory :=
  if 2 ^ 32 ≤ history.total_audits + 1 then .error .arith
  else if is_valid = false ∧ 2 ^ 32 ≤ history.consecutive_failures + 1 then .error .arith
  else .ok { history with
    audit_records := history.audit_records ++ [audit_record_id]
    last_audit_epoch := challenge_epoch
    total_audits := history.total_audits + 1
    consecutive_failures :=
      if is_valid then 0 else history.consecutive_failures + 1 }

/-- Iterate `update_blob_audit_history` over a list of
`(audit_record_id, challenge_epoch, is_valid)` outcomes, collecting the
`consecutive_failures` value observed after each successful call. -/
def consecutive_failures_trace (history : BlobAuditHistory) :
    List (Nat × Nat × Bool) → List Nat
  | [] => []
  | (rid, ep, v) :: rest =>
    match update_blob_audit_history history rid ep v with
    | .ok h => h.consecutive_failures :: consecutive_failures_trace h rest
    | .error _ => []

end AuditCore

namespace SessionKey

/-! Embedding of `SessionKeyManager` from `src/seal-client/src/policy.ts`. -/

/-- State of a `SessionKeyManager` instance: the ephemeral public key (in Sui address
form, as produced by `getPublicKey().toSuiAddress()`), the timestamps set by the
constructor, and the requester's `address` / `packageId` from the config. -/
structure SessionKeyState where
  publicKey : String
  createdAt : Nat
  expiresAt : Nat
  address : String
  packageId : String

/-- `getSignMessage()`: the canonical authorization string, with
`ttlMin = floor((expiresAt - createdAt) / 60000)`. -/
def getSignMessage (sk : SessionKeyState) : String :=
  "Accessing keys of package " ++ sk.packageId ++ " for " ++
    toString ((sk.expiresAt - sk.createdAt) / 60000) ++ " mins from " ++
    toString sk.createdAt ++ ", session key " ++ sk.publicKey

/-- The signature-recovery primitive (`verifyPersonalMessageSignature` composed with
`.toSuiAddress()`): given the encoded message and the signature, either the recovered
signer's Sui address or a thrown exception, abstracted as `Except`. -/
def RecoveryOracle : Type := String → String → Except String String

/-- `verifySignature(signature, address)`: inside a try/catch returning `false` on any
exception — reject if the claimed address differs from the stored requester address,
else recover the signer over the canonical message and require the recovered address
to equal the requester address. -/
def verifySignature (sk : SessionKeyState) (recover : RecoveryOracle)
    (signature claimed_address : String) : Bool :=
  if claimed_address ≠ sk.address then false
  else match recover (getSignMessage sk) signature with
    | .error _ => false
    | .ok recovered => recovered = sk.address

end SessionKey

/-! Concrete fixtures used by counterexamples and witnesses. -/

/-- An active policy with creator `1`, report id `5`, an expiry at time `100`, and empty
reader/auditor lists (as built by `create_policy 5 7 [] [] (some 100)` at time `0`). -/
def polExpiring : ReportAccess.ReportAccessPolicy :=
  ReportAccess.create_policy 5 7 [] [] (some 100) 0 1

/-- The same policy without an expiry. -/
def polForever : ReportAccess.ReportAccessPolicy :=
  ReportAccess.create_policy 5 7 [] [] none 0 1

/-- `polForever` after `revoke_policy` by its creator. -/
def polRevoked : ReportAccess.ReportAccessPolicy :=
  { polForever with is_active := false, revocation_reason := some [] }

/-- An `AuditConfig` in its post-`init` shape with auditor `9` authorized. -/
def cfgDemo : AuditCore.AuditConfig :=
  { admin := 0
    min_challenge_count := 10
    max_challenge_count := 100
    challenge_interval_ms := 3600000
    authorized_auditors := [9]
    auditor_stakes := []
    total_audits := 0
    total_blobs_audited := 0 }

/-- A transferable `SealToken` held by address `1`. -/
def tokDemo : ReportAccess.SealToken :=
  { policy_id := 1
    report_blob_id := 5
    holder := 1
    access_type := ReportAccess.ACCESS_READ
    granted_at := 0
    expires_at := none
    is_transferable := true }

/-- A session key whose requester address is `"0xa"`. -/
def skDemo : SessionKey.SessionKeyState :=
  { publicKey := "0xsk"
    createdAt := 1000
    expiresAt := 1000 + 1440 * 60000
    address := "0xa"
    packageId := "0xpkg" }

namespace ReportAccess

/-! Helper lemmas about the list and decoding primitives. -/

theorem remove_from_list_eq_erase (l : List Nat) (t : Nat) :
    remove_from_list l t = l.erase t := by
  induction l with
  | nil => rfl
  | cons b l ih =>
    by_cases hb : (b == t) = true
    · simp [remove_from_list, List.findIdx?_cons, List.erase_cons, hb]
    · rw [Bool.not_eq_true] at hb
      rw [List.erase_cons, if_neg (by simp [hb]), ← ih]
      simp only [remove_from_list, List.findIdx?_cons, hb, Bool.false_eq_true, if_false]
      cases hfi : l.findIdx? (fun x => x == t) with
      | none => simp [hfi]
      | some i => simp [hfi, List.eraseIdx_cons_succ]

theorem mem_remove_from_list {l : List Nat} {a t : Nat} (hne : a ≠ t) (ha : a ∈ l) :
    a ∈ remove_from_list l t := by
  rw [remove_from_list_eq_erase]
  exact (List.mem_erase_of_ne hne).mpr ha

theorem bytes_to_u256_loop_eq_sum (bytes : List Nat) :
    ∀ i result, bytes_to_u256_loop bytes i result =
      result + ∑ j in Finset.range bytes.length, bytes.getD j 0 * 2 ^ (8 * (i + j)) := by
  induction bytes with
  | nil => intro i result; simp [bytes_to_u256_loop]
  | cons b rest ih =>
    intro i result
    rw [bytes_to_u256_loop, ih, List.length_cons, Finset.sum_range_succ']
    simp only [List.getD_cons_succ, List.getD_cons_zero]
    have hsum : ∑ j in Finset.range rest.length, rest.getD j 0 * 2 ^ (8 * (i + 1 + j)) =
        ∑ j in Finset.range rest.length, rest.getD j 0 * 2 ^ (8 * (i + (j + 1))) :=
      Finset.sum_congr rfl fun j _ => by ring_nf
    rw [hsum]
    ring

theorem bytes_to_u256_eq_sum {bytes : List Nat} (h : bytes.length ≤ 32) :
    bytes_to_u256 bytes =
      .ok (∑ j in Finset.range bytes.length, bytes.getD j 0 * 2 ^ (8 * j)) := by
  unfold bytes_to_u256
  rw [if_pos h, bytes_to_u256_loop_eq_sum]
  simp

end ReportAccess

open ReportAccess in
/-- C5: `bytes_to_u256` aborts with `InvalidAccessType` on inputs longer than 32 bytes,
and on inputs of length ≤ 32 returns the little-endian value
`∑ i, bytes[i] * 2^(8*i)` (byte 0 least significant); concretely `[0x01, 0x02]`
decodes to `0x0201` and `[0xFF, 0x00, 0x00, 0x01]` to `0x010000FF`. -/
theorem C5_bytes_to_u256_le_decode (bytes : List Nat) :
    (bytes.length ≤ 32 →
      bytes_to_u256 bytes =
        .ok (∑ j in Finset.range bytes.length, bytes.getD j 0 * 2 ^ (8 * j))) ∧
    (32 < bytes.length →
      bytes_to_u256 bytes = .error (.abort E_INVALID_ACCESS_TYPE)) ∧
    bytes_to_u256 [0x01, 0x02] = .ok 0x0201 ∧
    bytes_to_u256 [0xFF, 0x00, 0x00, 0x01] = .ok 0x010000FF := by
  refine ⟨fun h => bytes_to_u256_eq_sum h, fun h => ?_, by rfl, by rfl⟩
  unfold bytes_to_u256
  rw [if_neg (by omega)]

open ReportAccess in
/-- C5 witness: the theorem instantiated at a 33-byte input and at `[0x01, 0x02]`. -/
theorem C5_bytes_to_u256_le_decode_witness :
    bytes_to_u256 (List.replicate 33 0) = .error (.abort E_INVALID_ACCESS_TYPE) ∧
    bytes_to_u256 [0x01, 0x02] =
      .ok (∑ j in Finset.range ([0x01, 0x02] : List Nat).length,
            ([0x01, 0x02] : List Nat).getD j 0 * 2 ^ (8 * j)) :=
  ⟨(C5_bytes_to_u256_le_decode (List.replicate 33 0)).2.1 (by simp),
   (C5_bytes_to_u256_le_decode [0x01, 0x02]).1 (by simp)⟩

open ReportAccess in
/-- C2 counterexample: an active policy with `expires_at = some 100`; at time `101` the
creator (`1`) is denied by `check_access`, because the expiry check runs before the
creator special-case — the claim asserts the creator gets `true` at every time. -/
theorem C2_counterexample_creator_denied_after_expiry :
    WalrusAudit.polExpiring.is_active = true ∧
    WalrusAudit.polExpiring.creator = 1 ∧
    WalrusAudit.polExpiring.expires_at = some 100 ∧
    check_access WalrusAudit.polExpiring 1 ACCESS_READ 101 = false := by
  decide

open ReportAccess in
/-- C2 (amended): for an active policy, `check_access` grants the creator for every
access_kind at every time not past `expires_at`; but the expiry check is evaluated
before the creator special-case, so when `expires_at` is set and `now` exceeds it, even
the creator is denied. -/
theorem C2_check_access_creator (p : ReportAccessPolicy) (access_type now : Nat)
    (hactive : p.is_active = true) :
    ((∀ e, p.expires_at = some e → now ≤ e) →
      check_access p p.creator access_type now = true) ∧
    (∀ e, p.expires_at = some e → e < now →
      check_access p p.creator access_type now = false) := by
  constructor
  · intro hexp
    unfold check_access
    rw [if_neg (by simp [hactive])]
    cases he : p.expires_at with
    | none => simp
    | some e =>
      have := hexp e he
      simp [he, Nat.not_lt.mpr this]
  · intro e he hlt
    unfold check_access
    rw [if_neg (by simp [hactive])]
    simp [he, hlt]

open ReportAccess in
/-- C2 witness: the amended theorem applied to `polForever` (active, no expiry): the
creator is granted, and to `polExpiring` at time `101`: the creator is denied. -/
theorem C2_check_access_creator_witness :
    check_access WalrusAudit.polForever WalrusAudit.polForever.creator ACCESS_AUDIT 500 = true ∧
    check_access WalrusAudit.polExpiring WalrusAudit.polExpiring.creator ACCESS_AUDIT 101 = false :=
  ⟨(C2_check_access_creator WalrusAudit.polForever ACCESS_AUDIT 500 (by decide)).1
      (fun e he => by simp [WalrusAudit.polForever, create_policy] at he),
   (C2_check_access_creator WalrusAudit.polExpiring ACCESS_AUDIT 101 (by decide)).2
      100 (by decide) (by decide)⟩

open ReportAccess in
/-- C3 counterexample: on a 33-byte `id_bytes` against an active policy, `seal_approve`
aborts with `E_INVALID_ACCESS_TYPE` (raised by `bytes_to_u256`), which is none of the
three abort codes the claim allows (`PolicyRevoked`, `ReportNotFound`,
`UnauthorizedAccess`). -/
theorem C3_counterexample_oversize_id_abort :
    WalrusAudit.polForever.is_active = true ∧
    seal_approve (List.replicate 33 0) WalrusAudit.polForever 1 =
      .error (.abort E_INVALID_ACCESS_TYPE) ∧
    E_INVALID_ACCESS_TYPE ≠ E_POLICY_REVOKED ∧
    E_INVALID_ACCESS_TYPE ≠ E_REPORT_NOT_FOUND ∧
    E_INVALID_ACCESS_TYPE ≠ E_UNAUTHORIZED_ACCESS :=
  ⟨rfl, rfl, by decide, by decide, by decide⟩

open ReportAccess in
/-- C3 (amended): `seal_approve` succeeds iff the policy is active, the little-endian
decode of `id_bytes` succeeds and equals `report_blob_id`, and the caller is the creator
or in one of the three lists; it aborts with `PolicyRevoked` when inactive, with
`InvalidAccessType` when `id_bytes` exceeds 32 bytes, with `ReportNotFound` when the
decode succeeds but mismatches, and with `UnauthorizedAccess` otherwise. It takes no
clock argument, so its verdict never depends on `expires_at` or the current time. -/
theorem C3_seal_approve_characterization (p : ReportAccessPolicy)
    (id_bytes : List Nat) (sender : Nat) :
    (seal_approve id_bytes p sender = .ok () ↔
      p.is_active = true ∧ bytes_to_u256 id_bytes = .ok p.report_blob_id ∧
        (sender = p.creator ∨ sender ∈ p.allowed_readers ∨ sender ∈ p.allowed_auditors ∨
          sender ∈ p.allowed_admins)) ∧
    (p.is_active = false →
      seal_approve id_bytes p sender = .error (.abort E_POLICY_REVOKED)) ∧
    (p.is_active = true → 32 < id_bytes.length →
      seal_approve id_bytes p sender = .error (.abort E_INVALID_ACCESS_TYPE)) ∧
    (p.is_active = true → ∀ v, bytes_to_u256 id_bytes = .ok v → v ≠ p.report_blob_id →
      seal_approve id_bytes p sender = .error (.abort E_REPORT_NOT_FOUND)) ∧
    (p.is_active = true → bytes_to_u256 id_bytes = .ok p.report_blob_id →
      sender ≠ p.creator → sender ∉ p.allowed_readers → sender ∉ p.allowed_auditors →
      sender ∉ p.allowed_admins →
      seal_approve id_bytes p sender = .error (.abort E_UNAUTHORIZED_ACCESS)) := by
  refine ⟨?_, ?_, ?_, ?_, ?_⟩
  · by_cases hact : p.is_active = false
    · simp [seal_approve, hact]
    · rw [Bool.not_eq_false] at hact
      by_cases hlen : id_bytes.length ≤ 32
      · have hdec : bytes_to_u256 id_bytes = .ok (bytes_to_u256_loop id_bytes 0 0) := by
          rw [bytes_to_u256, if_pos hlen]
        by_cases hid : bytes_to_u256_loop id_bytes 0 0 = p.report_blob_id
        · by_cases hcr : sender = p.creator
          · simp [seal_approve, hact, hdec, hid, hcr]
          · by_cases h1 : sender ∈ p.allowed_readers <;>
              by_cases h2 : sender ∈ p.allowed_auditors <;>
              by_cases h3 : sender ∈ p.allowed_admins <;>
              simp [seal_approve, hact, hdec, hid, hcr, h1, h2, h3]
        · simp [seal_approve, hact, hdec, hid]
      · have hdec : bytes_to_u256 id_bytes = .error (.abort E_INVALID_ACCESS_TYPE) := by
          rw [bytes_to_u256, if_neg hlen]
        simp [seal_approve, hact, hdec]
  · intro hact
    simp [seal_approve, hact]
  · intro hact hlen
    have hdec : bytes_to_u256 id_bytes = .error (.abort E_INVALID_ACCESS_TYPE) := by
      rw [bytes_to_u256, if_neg (Nat.not_le.mpr hlen)]
    simp [seal_approve, hact, hdec]
  · intro hact v hv hne
    have hlen : id_bytes.length ≤ 32 := by
      by_contra hnle
      rw [bytes_to_u256, if_neg hnle] at hv
      cases hv
    rw [bytes_to_u256, if_pos hlen, Except.ok.injEq] at hv
    subst hv
    have hdec : bytes_to_u256 id_bytes = .ok (bytes_to_u256_loop id_bytes 0 0) := by
      rw [bytes_to_u256, if_pos hlen]
    simp [seal_approve, hact, hdec, hne]
  · intro hact hv hcr h1 h2 h3
    have hlen : id_bytes.length ≤ 32 := by
      by_contra hnle
      rw [bytes_to_u256, if_neg hnle] at hv
      cases hv
    rw [bytes_to_u256, if_pos hlen, Except.ok.injEq] at hv
    have hdec : bytes_to_u256 id_bytes = .ok p.report_blob_id := by
      rw [bytes_to_u256, if_pos hlen, hv]
    simp [seal_approve, hact, hdec, hcr, h1, h2, h3]

open ReportAccess in
/-- C3 witness: the amended theorem applied to a revoked policy (abort `PolicyRevoked`)
and to an active policy queried by its creator with the matching id (success). -/
theorem C3_seal_approve_characterization_witness :
    seal_approve [5] WalrusAudit.polRevoked 1 = .error (.abort E_POLICY_REVOKED) ∧
    seal_approve [5] WalrusAudit.polForever 1 = .ok () :=
  ⟨(C3_seal_approve_characterization WalrusAudit.polRevoked [5] 1).2.1 rfl,
   (C3_seal_approve_characterization WalrusAudit.polForever [5] 1).1.mpr
      ⟨rfl, by rfl, Or.inl rfl⟩⟩

namespace ReportAccess

/-! Frame lemmas: how each entry call can change the shared policy object. -/

theorem grant_access_token_ok {p : ReportAccessPolicy} {r aty : Nat} {tr : Bool}
    {te : Option Nat} {now s pid : Nat} {out : ReportAccessPolicy × SealToken}
    (hg : grant_access_token p r aty tr te now s pid = .ok out) :
    out.1.creator = p.creator ∧ out.1.is_active = p.is_active ∧
    (out.1.allowed_admins = p.allowed_admins ∨
      out.1.allowed_admins = p.allowed_admins ++ [r]) := by
  unfold grant_access_token at hg
  (repeat' split at hg) <;> (try cases hg) <;> simp_all

theorem revoke_policy_ok {p : ReportAccessPolicy} {reason : List Nat} {s : Nat}
    {p' : ReportAccessPolicy} (h : revoke_policy p reason s = .ok p') :
    p' = { p with is_active := false, revocation_reason := some reason } := by
  unfold revoke_policy at h
  split at h
  · cases h
  · cases h
    rfl

theorem remove_access_ok {p : ReportAccessPolicy} {target aty s : Nat}
    {p' : ReportAccessPolicy} (h : remove_access p target aty s = .ok p') :
    p'.creator = p.creator ∧ p'.is_active = p.is_active ∧
    (p'.allowed_admins = p.allowed_admins ∨
      (target ≠ p.creator ∧
        p'.allowed_admins = remove_from_list p.allowed_admins target)) := by
  unfold remove_access at h
  (repeat' split at h) <;> (try cases h) <;> simp_all

theorem log_access_ok {p : ReportAccessPolicy} {records : List AccessRecord}
    {aty : Nat} {tid : Option Nat} {now s : Nat}
    {out : ReportAccessPolicy × List AccessRecord}
    (h : log_access p records aty tid now s = .ok out) :
    out.1.creator = p.creator ∧ out.1.is_active = p.is_active ∧
    out.1.allowed_admins = p.allowed_admins := by
  unfold log_access at h
  by_cases hc : check_access p s aty now = true ∧ p.total_accesses + 1 ≥ 2 ^ 64
  · rw [if_pos hc] at h
    cases h
  · rw [if_neg hc] at h
    cases h
    by_cases hs : check_access p s aty now = true <;> simp [hs]

theorem applyPolicyOp_creator_eq (op : PolicyOp) (p : ReportAccessPolicy) :
    (applyPolicyOp op p).creator = p.creator := by
  cases op with
  | grant r aty tr te now s pid =>
    simp only [applyPolicyOp]
    cases hg : grant_access_token p r aty tr te now s pid with
    | error e => rfl
    | ok out =>
      obtain ⟨p', tk⟩ := out
      exact (grant_access_token_ok hg).1
  | revoke reason s =>
    simp only [applyPolicyOp]
    cases hg : revoke_policy p reason s with
    | error e => rfl
    | ok p' => rw [revoke_policy_ok hg]
  | removeAcc target aty s =>
    simp only [applyPolicyOp]
    cases hg : remove_access p target aty s with
    | error e => rfl
    | ok p' => exact (remove_access_ok hg).1
  | logAcc aty tid now s =>
    simp only [applyPolicyOp]
    cases hg : log_access p [] aty tid now s with
    | error e => rfl
    | ok out =>
      obtain ⟨p', recs⟩ := out
      exact (log_access_ok hg).1

theorem applyPolicyOp_inactive (op : PolicyOp) (p : ReportAccessPolicy)
    (h : p.is_active = false) : (applyPolicyOp op p).is_active = false := by
  cases op with
  | grant r aty tr te now s pid =>
    simp only [applyPolicyOp]
    cases hg : grant_access_token p r aty tr te now s pid with
    | error e => exact h
    | ok out =>
      obtain ⟨p', tk⟩ := out
      rw [(grant_access_token_ok hg).2.1]
      exact h
  | revoke reason s =>
    simp only [applyPolicyOp]
    cases hg : revoke_policy p reason s with
    | error e => exact h
    | ok p' => rw [revoke_policy_ok hg]
  | removeAcc target aty s =>
    simp only [applyPolicyOp]
    cases hg : remove_access p target aty s with
    | error e => exact h
    | ok p' =>
      rw [(remove_access_ok hg).2.1]
      exact h
  | logAcc aty tid now s =>
    simp only [applyPolicyOp]
    cases hg : log_access p [] aty tid now s with
    | error e => exact h
    | ok out =>
      obtain ⟨p', recs⟩ := out
      rw [(log_access_ok hg).2.1]
      exact h

theorem applyPolicyOp_creator_mem_admins (op : PolicyOp) (p : ReportAccessPolicy)
    (h : p.creator ∈ p.allowed_admins) :
    p.creator ∈ (applyPolicyOp op p).allowed_admins := by
  cases op with
  | grant r aty tr te now s pid =>
    simp only [applyPolicyOp]
    cases hg : grant_access_token p r aty tr te now s pid with
    | error e => exact h
    | ok out =>
      obtain ⟨p', tk⟩ := out
      rcases (grant_access_token_ok hg).2.2 with heq | heq
      · rw [heq]; exact h
      · rw [heq]; exact List.mem_append_left _ h
  | revoke reason s =>
    simp only [applyPolicyOp]
    cases hg : revoke_policy p reason s with
    | error e => exact h
    | ok p' => rw [revoke_policy_ok hg]; exact h
  | removeAcc target aty s =>
    simp only [applyPolicyOp]
    cases hg : remove_access p target aty s with
    | error e => exact h
    | ok p' =>
      rcases (remove_access_ok hg).2.2 with heq | ⟨hne, heq⟩
      · rw [heq]; exact h
      · rw [heq]; exact mem_remove_from_list (Ne.symm hne) h
  | logAcc aty tid now s =>
    simp only [applyPolicyOp]
    cases hg : log_access p [] aty tid now s with
    | error e => exact h
    | ok out =>
      obtain ⟨p', recs⟩ := out
      rw [(log_access_ok hg).2.2]
      exact h

theorem runPolicyOps_inactive (ops : List PolicyOp) :
    ∀ p : ReportAccessPolicy, p.is_active = false →
      (runPolicyOps p ops).is_active = false := by
  induction ops with
  | nil => intro p h; exact h
  | cons op ops ih =>
    intro p h
    simp only [runPolicyOps, List.foldl_cons] at *
    exact ih _ (applyPolicyOp_inactive op p h)

theorem runPolicyOps_creator_eq (ops : List PolicyOp) :
    ∀ p : ReportAccessPolicy, (runPolicyOps p ops).creator = p.creator := by
  induction ops with
  | nil => intro p; rfl
  | cons op ops ih =>
    intro p
    simp only [runPolicyOps, List.foldl_cons] at *
    rw [ih _, applyPolicyOp_creator_eq]

theorem runPolicyOps_creator_mem_admins (ops : List PolicyOp) :
    ∀ p : ReportAccessPolicy, p.creator ∈ p.allowed_admins →
      p.creator ∈ (runPolicyOps p ops).allowed_admins := by
  induction ops with
  | nil => intro p h; exact h
  | cons op ops ih =>
    intro p h
    simp only [runPolicyOps, List.foldl_cons] at *
    have h2 := ih (applyPolicyOp op p)
      (by rw [applyPolicyOp_creator_eq]; exact applyPolicyOp_creator_mem_admins op p h)
    rwa [applyPolicyOp_creator_eq] at h2

end ReportAccess

open ReportAccess in
/-- C4: revocation is terminal — a successful `revoke_policy` leaves `is_active = false`;
from that state no sequence of module operations ever turns `is_active` back on, and
`seal_approve` aborts with `PolicyRevoked` while `check_access` returns `false` for every
principal, access_kind and time (the creator included). -/
theorem C4_revocation_terminal (p0 : ReportAccessPolicy) (reason : List Nat)
    (s : Nat) (p : ReportAccessPolicy)
    (hrev : revoke_policy p0 reason s = .ok p) :
    p.is_active = false ∧
    (∀ ops : List PolicyOp, (runPolicyOps p ops).is_active = false) ∧
    (∀ (id_bytes : List Nat) (sender : Nat),
      seal_approve id_bytes p sender = .error (.abort E_POLICY_REVOKED)) ∧
    (∀ accessor access_type now : Nat,
      check_access p accessor access_type now = false) := by
  have hp : p.is_active = false := by
    unfold revoke_policy at hrev
    split at hrev
    · cases hrev
    · cases hrev
      rfl
  refine ⟨hp, fun ops => runPolicyOps_inactive ops p hp, fun id_bytes sender => ?_,
    fun accessor access_type now => ?_⟩
  · simp [seal_approve, hp]
  · simp [check_access, hp]

open ReportAccess in
/-- C4 witness: the theorem applied to `polForever` revoked by its creator `1`; the
revoked policy denies even the creator, under any later operation sequence. -/
theorem C4_revocation_terminal_witness :
    WalrusAudit.polRevoked.is_active = false ∧
    (runPolicyOps WalrusAudit.polRevoked
      [.grant 2 ACCESS_READ true none 0 1 0]).is_active = false ∧
    seal_approve [5] WalrusAudit.polRevoked 1 = .error (.abort E_POLICY_REVOKED) ∧
    check_access WalrusAudit.polRevoked 1 ACCESS_READ 50 = false := by
  have h := C4_revocation_terminal WalrusAudit.polForever [] 1 WalrusAudit.polRevoked rfl
  exact ⟨h.1, h.2.1 _, h.2.2.1 [5] 1, h.2.2.2 1 ACCESS_READ 50⟩

open ReportAccess in
/-- C6: in every policy state reachable from `create_policy` under any sequence of
`grant_access_token` / `remove_access` / `revoke_policy` / `log_access` calls, the
creator is a member of `allowed_admins`; `create_policy` initializes `allowed_admins`
to `[creator]`, and `remove_access` on the creator with the `ADMIN` kind leaves the
policy unchanged. -/
theorem C6_creator_always_admin (report_blob_id audit_record_id : Nat)
    (readers auditors : List Nat) (expires_at_ms : Option Nat)
    (now creator : Nat) (ops : List PolicyOp) :
    (create_policy report_blob_id audit_record_id readers auditors expires_at_ms
        now creator).allowed_admins = [creator] ∧
    creator ∈ (runPolicyOps
        (create_policy report_blob_id audit_record_id readers auditors expires_at_ms
          now creator) ops).allowed_admins ∧
    (∀ (p : ReportAccessPolicy) (s : Nat),
      applyPolicyOp (.removeAcc p.creator ACCESS_ADMIN s) p = p) := by
  refine ⟨rfl, ?_, fun p s => ?_⟩
  · have h := runPolicyOps_creator_mem_admins ops
      (create_policy report_blob_id audit_record_id readers auditors expires_at_ms
        now creator) (by simp [create_policy])
    simpa [create_policy] using h
  · cases hr : remove_access p p.creator ACCESS_ADMIN s with
    | error e => simp only [applyPolicyOp, hr]
    | ok p' =>
      simp only [applyPolicyOp, hr]
      unfold remove_access at hr
      (repeat' split at hr) <;> (try cases hr) <;>
        simp_all [ACCESS_READ, ACCESS_AUDIT, ACCESS_ADMIN]

open AuditCore in
/-- C1: code bug — `submit_audit_record` computes `is_valid` with the flooring integer
expression `successful >= total_challenges * 95 / 100` instead of the documented
ceiling 95%-success-rate threshold: at `total_challenges = 10`,
`successful_verifications = 9` the success rate is 90% (`9 * 100 < 10 * 95`), yet the
created record is marked valid; at `(20, 19)` the rate is exactly 95% and the record is
valid as specified. -/
theorem C1_validity_threshold_floor_bug :
    ((submit_audit_record WalrusAudit.cfgDemo 1 2 3 10 9 [] [] ALGO_FALCON512 0 9).map
        fun out => out.2.is_valid) = .ok true ∧
    9 * 100 < 10 * 95 ∧
    ((submit_audit_record WalrusAudit.cfgDemo 1 2 3 20 19 [] [] ALGO_FALCON512 0 9).map
        fun out => out.2.is_valid) = .ok true ∧
    19 * 100 = 20 * 95 :=
  ⟨rfl, by decide, rfl, by decide⟩

open AuditCore in
/-- C9: when `successful_verifications` exceeds `total_challenges` and the three
explicit checks pass, the `u16` subtraction `total_challenges - successful_verifications`
underflows and the call aborts with an arithmetic error before any state change: no
`AuditRecord` is produced and the config is not updated. -/
theorem C9_underflow_aborts (config : AuditConfig)
    (blob_id blob_object_id challenge_epoch total successful : Nat)
    (integrity_hash pqc_signature : List Nat) (algo now sender : Nat)
    (hauth : config.authorized_auditors.contains sender = true)
    (hmin : config.min_challenge_count ≤ total)
    (hmax : total ≤ config.max_challenge_count)
    (halgo : algo = ALGO_FALCON512 ∨ algo = ALGO_DILITHIUM2)
    (hgt : total < successful) :
    submit_audit_record config blob_id blob_object_id challenge_epoch total successful
      integrity_hash pqc_signature algo now sender = .error .arith ∧
    ∀ out, submit_audit_record config blob_id blob_object_id challenge_epoch total
      successful integrity_hash pqc_signature algo now sender ≠ .ok out := by
  have h1 : submit_audit_record config blob_id blob_object_id challenge_epoch total
      successful integrity_hash pqc_signature algo now sender = .error .arith := by
    unfold submit_audit_record
    rw [if_neg (not_not_intro hauth), if_neg (not_not_intro ⟨hmin, hmax⟩),
      if_neg (not_not_intro halgo), if_pos hgt]
  refine ⟨h1, fun out hok => ?_⟩
  rw [h1] at hok
  cases hok

open AuditCore in
/-- C9 witness: the theorem applied to `cfgDemo` with `total_challenges = 10` and
`successful_verifications = 11`. -/
theorem C9_underflow_aborts_witness :
    submit_audit_record WalrusAudit.cfgDemo 1 2 3 10 11 [] [] ALGO_FALCON512 0 9 =
      .error .arith :=
  (C9_underflow_aborts WalrusAudit.cfgDemo 1 2 3 10 11 [] [] ALGO_FALCON512 0 9
    (by decide) (by decide) (by decide) (Or.inl rfl) (by decide)).1

open AuditCore in
/-- C7: each completing `update_blob_audit_history` call appends the record id, stamps
`last_audit_epoch`, increments `total_audits`, and resets `consecutive_failures` to 0
on a valid audit / increments it on an invalid one; the outcome sequence
`[valid, invalid, invalid, valid]` on a fresh history yields the
`consecutive_failures` trace `[0, 1, 2, 0]`. -/
theorem C7_update_blob_audit_history (h : BlobAuditHistory) (rid ep : Nat) (v : Bool)
    (h1 : h.total_audits + 1 < 2 ^ 32) (h2 : h.consecutive_failures + 1 < 2 ^ 32) :
    update_blob_audit_history h rid ep v = .ok
      { blob_id := h.blob_id
        audit_records := h.audit_records ++ [rid]
        last_audit_epoch := ep
        total_audits := h.total_audits + 1
        consecutive_failures := if v then 0 else h.consecutive_failures + 1 } ∧
    ∀ (blob r1 e1 r2 e2 r3 e3 r4 e4 : Nat),
      consecutive_failures_trace (create_blob_audit_history blob)
        [(r1, e1, true), (r2, e2, false), (r3, e3, false), (r4, e4, true)] =
        [0, 1, 2, 0] := by
  constructor
  · unfold update_blob_audit_history
    rw [if_neg (by omega), if_neg (fun hcon => absurd hcon.2 (by omega))]
  · intro blob r1 e1 r2 e2 r3 e3 r4 e4
    norm_num [consecutive_failures_trace, update_blob_audit_history,
      create_blob_audit_history]

open AuditCore in
/-- C7 witness: the theorem applied to a fresh history for blob `5`, with an invalid
audit of record id `42` at epoch `7`, and to the four-outcome trace. -/
theorem C7_update_blob_audit_history_witness :
    update_blob_audit_history (create_blob_audit_history 5) 42 7 false = .ok
      { blob_id := 5
        audit_records := [42]
        last_audit_epoch := 7
        total_audits := 1
        consecutive_failures := 1 } ∧
    consecutive_failures_trace (create_blob_audit_history 5)
      [(1, 1, true), (2, 2, false), (3, 3, false), (4, 4, true)] = [0, 1, 2, 0] := by
  have h := C7_update_blob_audit_history (create_blob_audit_history 5) 42 7 false
    (by norm_num [create_blob_audit_history]) (by norm_num [create_blob_audit_history])
  exact ⟨by simpa [create_blob_audit_history] using h.1, h.2 5 1 1 2 2 3 3 4 4⟩

open SessionKey in
/-- C8: `verifySignature` fails closed — it returns `false` whenever the claimed
address differs from the stored requester address, regardless of the signature; any
exception during recovery yields `false` rather than propagating; and it returns `true`
exactly when the claimed address matches and the address recovered over the canonical
message equals the requester address. -/
theorem C8_verify_signature_fail_closed (sk : SessionKeyState)
    (recover : RecoveryOracle) (signature claimed : String) :
    (claimed ≠ sk.address → verifySignature sk recover signature claimed = false) ∧
    (∀ err, recover (getSignMessage sk) signature = .error err →
      verifySignature sk recover signature claimed = false) ∧
    (verifySignature sk recover signature claimed = true ↔
      claimed = sk.address ∧
        recover (getSignMessage sk) signature = .ok sk.address) := by
  refine ⟨fun hne => ?_, fun err herr => ?_, ?_⟩
  · simp [verifySignature, hne]
  · by_cases hcl : claimed = sk.address
    · simp [verifySignature, hcl, herr]
    · simp [verifySignature, hcl]
  · by_cases hcl : claimed = sk.address
    · cases hrec : recover (getSignMessage sk) signature with
      | error e => simp [verifySignature, hcl, hrec]
      | ok a => simp [verifySignature, hcl, hrec]
    · simp [verifySignature, hcl]

open SessionKey in
/-- C8 witness: with requester `"0xa"` — a mismatched claimed address is rejected even
under an oracle that recovers the right signer; a throwing oracle yields `false`; the
matching case verifies. -/
theorem C8_verify_signature_fail_closed_witness :
    verifySignature WalrusAudit.skDemo (fun _ _ => .ok ("0xa")) ("sig") ("0xb") = false ∧
    verifySignature WalrusAudit.skDemo (fun _ _ => .error ("bad")) ("sig") ("0xa") = false ∧
    verifySignature WalrusAudit.skDemo (fun _ _ => .ok ("0xa")) ("sig") ("0xa") = true :=
  ⟨(C8_verify_signature_fail_closed WalrusAudit.skDemo
      (fun _ _ => .ok ("0xa")) ("sig") ("0xb")).1 (by decide),
   (C8_verify_signature_fail_closed WalrusAudit.skDemo
      (fun _ _ => .error ("bad")) ("sig") ("0xa")).2.1 ("bad") rfl,
   (C8_verify_signature_fail_closed WalrusAudit.skDemo
      (fun _ _ => .ok ("0xa")) ("sig") ("0xa")).2.2.mpr ⟨rfl, rfl⟩⟩

open ReportAccess in
/-- C10 counterexample: the claim quantifies over every recipient, but for a
self-transfer (`recipient = holder`) the subsequent `transfer_token` by the recipient
does not fail: token `tokDemo` is held by `1`, `1` transfers it to `1`, and the
follow-up call by `1` succeeds instead of aborting with `UnauthorizedAccess`. -/
theorem C10_counterexample_self_transfer :
    transfer_token WalrusAudit.tokDemo 1 1 = .ok (WalrusAudit.tokDemo, 1) ∧
    transfer_token WalrusAudit.tokDemo 2 1 = .ok (WalrusAudit.tokDemo, 2) :=
  ⟨rfl, rfl⟩

open ReportAccess in
/-- C10 (amended): `transfer_token` moves object ownership but never writes the
`holder` field — the transferred token is field-for-field the input token — so a
subsequent `transfer_token` call by the recipient fails the `sender == token.holder`
check with `UnauthorizedAccess` whenever the recipient differs from the pre-transfer
holder. -/
theorem C10_transfer_token_frame (token : SealToken) (recipient r2 sender : Nat)
    (htr : token.is_transferable = true) (hs : sender = token.holder) :
    transfer_token token recipient sender = .ok (token, recipient) ∧
    (recipient ≠ token.holder →
      transfer_token token r2 recipient = .error (.abort E_UNAUTHORIZED_ACCESS)) := by
  constructor
  · unfold transfer_token
    rw [if_neg (by simp [htr]), if_neg (by simp [hs])]
  · intro hne
    unfold transfer_token
    rw [if_neg (by simp [htr]), if_pos hne]

open ReportAccess in
/-- C10 witness: holder `1` transfers `tokDemo` to `2`; the token's fields (its
`holder` included) are unchanged, and `2`'s own transfer attempt aborts. -/
theorem C10_transfer_token_frame_witness :
    transfer_token WalrusAudit.tokDemo 2 1 = .ok (WalrusAudit.tokDemo, 2) ∧
    transfer_token WalrusAudit.tokDemo 3 2 = .error (.abort E_UNAUTHORIZED_ACCESS) :=
  ⟨(C10_transfer_token_frame WalrusAudit.tokDemo 2 3 1 rfl rfl).1,
   (C10_transfer_token_frame WalrusAudit.tokDemo 2 3 1 rfl rfl).2 (by decide)⟩

end WalrusAudit
